import Mathlib

/-!
# Verification of the Product/Company CRUD service (`main.py`, `models/product.py`,
`models/company.py`)

Shallow embedding of the FastAPI service in Lean 4.

Modelling conventions:
* A Python `dict[UUID, V]` is modelled as an insertion-ordered association list
  `List (Nat × V)`; a UUID is modelled as a `Nat`.  `setKey` is dict assignment
  (overwrite in place if the key exists, else append), `delKey` is `del d[k]`
  (a dict holds at most one entry per key, so deleting the key removes every
  pair carrying it), `getKey`/`hasKey` are subscript and `in`, and `vals` is
  `list(d.values())`.
* `datetime.utcnow()` readings are modelled as `Nat` clock ticks supplied as
  explicit arguments: a pydantic model with two `default_factory=datetime.utcnow`
  fields consumes two readings `t1` (for `created_at`, validated first) and
  `t2` (for `updated_at`), which real executions do not guarantee to be equal.
* Python `float` values (the product `price`) are modelled as rationals; Python
  `==` on finite floats is exact value equality, matched by `Rat` equality.
* A pydantic model instance records which fields were explicitly provided
  (`model_fields_set`); a field of an Update schema is modelled as `Patch α`:
  `unset` (omitted from the request body) or `set v` (provided, possibly null,
  hence `α` is an `Option`).  `model_dump(exclude_unset=True)` keeps exactly
  the `set` fields.
* A handler is a function `store → args → store × result`; Python statements
  that never assign to the dict return the store unchanged.  `raise
  HTTPException(status_code, detail)` is `Except.error ⟨status_code, detail⟩`.
-/

/-- An HTTP error raised by a handler: `HTTPException(status_code, detail)`. -/
structure HErr where
  status : Nat
  detail : String
deriving DecidableEq, Repr

/-- A field of a pydantic Update schema: omitted from the request body
(`unset`) or explicitly provided (`set v`). -/
inductive Patch (α : Type) where
  | unset : Patch α
  | set (v : α) : Patch α
deriving DecidableEq, Repr

/-- A JSON value, as serialized into a response body. -/
inductive JVal where
  | jstr (s : String)
  | jint (n : Int)
  | jnum (q : Rat)
  | jnull
deriving DecidableEq, Repr

/-- Lookup of a key in a serialized JSON object body. -/
def jsonGet (k : String) : List (String × JVal) → Option JVal
  | [] => none
  | (k', v) :: rest => if k' = k then some v else jsonGet k rest

/-! ## The in-memory "database" dictionaries -/

/-- `d[k]` as an `Option`: the value stored under `k`, if any. -/
def getKey (k : Nat) : List (Nat × α) → Option α
  | [] => none
  | (k', v) :: rest => if k' = k then some v else getKey k rest

/-- `k in d`. -/
def hasKey (k : Nat) (s : List (Nat × α)) : Bool :=
  (getKey k s).isSome

/-- `d[k] = v`: overwrite in place if present (dicts keep insertion position on
overwrite), append otherwise. -/
def setKey (k : Nat) (v : α) : List (Nat × α) → List (Nat × α)
  | [] => [(k, v)]
  | (k', v') :: rest => if k' = k then (k, v) :: rest else (k', v') :: setKey k v rest

/-- `del d[k]`: a dict holds at most one entry per key, so removing the key
removes every pair carrying it. -/
def delKey (k : Nat) (s : List (Nat × α)) : List (Nat × α) :=
  s.filter (fun kv => !(kv.1 = k : Bool))

/-- `list(d.values())`, in insertion order. -/
def vals (s : List (Nat × α)) : List α :=
  s.map Prod.snd

/-! ## Product schemas (`models/product.py`) -/

/-- `ProductCreate` (inherits every field of `ProductBase` unchanged). -/
structure ProductCreate where
  id : Nat
  name : String
  description : Option String
  price : Rat
  quantity : Int
deriving DecidableEq, Repr

/-- `ProductRead`: `ProductBase` plus the two timestamp fields, each with
`default_factory=datetime.utcnow`. -/
structure ProductRead where
  id : Nat
  name : String
  description : Option String
  price : Rat
  quantity : Int
  created_at : Nat
  updated_at : Nat
deriving DecidableEq, Repr

/-- `ProductUpdate`: every field `Optional` with default `None`, so a request
body providing any subset of fields validates; pydantic tracks which fields
were provided, hence each field is a `Patch` over a nullable value. -/
structure ProductUpdate where
  name : Patch (Option String)
  description : Patch (Option String)
  price : Patch (Option Rat)
  quantity : Patch (Option Int)
deriving DecidableEq, Repr

/-- Validation of a `PATCH /products/{id}` request body against
`ProductUpdate`: every field is optional (default `None`), so any subset of
provided fields is accepted. -/
def ProductUpdate.validate (b : ProductUpdate) : Except String ProductUpdate :=
  .ok b

/-- `ProductRead(**product.model_dump())` inside `create_product`: the base
fields come from the payload and the two timestamp default factories consume
the clock readings `t1` (for `created_at`) and `t2` (for `updated_at`). -/
def mkProductRead (p : ProductCreate) (t1 t2 : Nat) : ProductRead :=
  { id := p.id, name := p.name, description := p.description,
    price := p.price, quantity := p.quantity,
    created_at := t1, updated_at := t2 }

/-- The body of `update_product` after the 404 check:
`stored = products[product_id].model_dump()`;
`stored.update(update.model_dump(exclude_unset=True))` overlays exactly the
`set` fields (a field explicitly sent as `null` overlays `None`); then
`ProductRead(**stored)` revalidates, which fails (pydantic `ValidationError`)
when a required field (`name`, `price`, `quantity`) was overlaid with `None`.
`id`, `created_at`, `updated_at` are keys of `stored` untouched by the
overlay, so the revalidation keeps them. -/
def applyProductUpdate (r : ProductRead) (u : ProductUpdate) :
    Except String ProductRead :=
  let name' : Option String := match u.name with | .unset => some r.name | .set v => v
  let description' : Option String :=
    match u.description with | .unset => r.description | .set v => v
  let price' : Option Rat := match u.price with | .unset => some r.price | .set v => v
  let quantity' : Option Int := match u.quantity with | .unset => some r.quantity | .set v => v
  match name', price', quantity' with
  | some n, some pr, some q =>
      .ok { id := r.id, name := n, description := description',
            price := pr, quantity := q,
            created_at := r.created_at, updated_at := r.updated_at }
  | _, _, _ => .error "validation error"

/-- The product store `products : Dict[UUID, ProductRead]`. -/
abbrev ProductStore := List (Nat × ProductRead)

/-- Initial state of the `products` dict: empty. -/
def productsInit : ProductStore := []

/-! ## Product endpoints (`main.py`) -/

/-- `POST /product` (`create_product`): 400 on id collision, else store the
Read record built from the payload plus two fresh clock readings. -/
def create_product (s : ProductStore) (product : ProductCreate) (t1 t2 : Nat) :
    ProductStore × Except HErr ProductRead :=
  if hasKey product.id s then
    (s, .error ⟨400, "Product with this ID already exists"⟩)
  else
    let r := mkProductRead product t1 t2
    (setKey product.id r s, .ok r)

/-- `GET /product` (`list_products`): start from `list(products.values())` and
apply one exact-equality filter per supplied query parameter, in source
order. -/
def list_products (s : ProductStore) (name : Option String)
    (description : Option String) (price : Option Rat) (quantity : Option Int) :
    ProductStore × List ProductRead :=
  let results := vals s
  let results := match name with
    | none => results
    | some n => results.filter (fun a => a.name == n)
  let results := match description with
    | none => results
    | some d => results.filter (fun a => a.description == some d)
  let results := match price with
    | none => results
    | some p => results.filter (fun a => a.price == p)
  let results := match quantity with
    | none => results
    | some q => results.filter (fun a => a.quantity == q)
  (s, results)

/-- `GET /products/{product_id}` (`get_products`): 404 if absent, else the
stored record. -/
def get_products (s : ProductStore) (product_id : Nat) :
    ProductStore × Except HErr ProductRead :=
  match getKey product_id s with
  | none => (s, .error ⟨404, "Product not found"⟩)
  | some r => (s, .ok r)

/-- `PATCH /products/{product_id}` (`update_product`): 404 if absent; the dump
/ overlay / revalidate sequence is `applyProductUpdate`.  If the revalidation
raises (a required field overlaid with `None`) the assignment never executes
and the framework turns the exception into a 500. -/
def update_product (s : ProductStore) (product_id : Nat) (update : ProductUpdate) :
    ProductStore × Except HErr ProductRead :=
  match getKey product_id s with
  | none => (s, .error ⟨404, "Product not found"⟩)
  | some stored =>
      match applyProductUpdate stored update with
      | .ok r => (setKey product_id r s, .ok r)
      | .error _ => (s, .error ⟨500, "Internal Server Error"⟩)

/-- `DELETE /products/{product_id}` (`delete_product`): 404 if absent (note
the trailing period in this handler's detail string), else remove the key. -/
def delete_product (s : ProductStore) (product_id : Nat) :
    ProductStore × Except HErr Unit :=
  if hasKey product_id s then (delKey product_id s, .ok ())
  else (s, .error ⟨404, "Product not found."⟩)

/-! ## Company schemas (`models/company.py`) -/

/-- `CompanyCreate` (inherits every field of `CompanyBase` unchanged). -/
structure CompanyCreate where
  id : Nat
  name : String
  industry : String
  employees : Int
  phone : String
  state : String
deriving DecidableEq, Repr

/-- `CompanyRead`: `CompanyBase` plus the two timestamp fields, each with
`default_factory=datetime.utcnow`. -/
structure CompanyRead where
  id : Nat
  name : String
  industry : String
  employees : Int
  phone : String
  state : String
  created_at : Nat
  updated_at : Nat
deriving DecidableEq, Repr

/-- A validated `CompanyUpdate` instance.  Unlike `ProductUpdate`, every field
of `CompanyUpdate` is declared `Optional[...] = Field(...)`: required but
nullable.  A validated instance therefore has every field explicitly set
(possibly to `null`), so no `Patch` wrapper is needed: `model_dump
(exclude_unset=True)` always dumps all five fields. -/
structure CompanyUpdate where
  name : Option String
  industry : Option String
  employees : Option Int
  phone : Option String
  state : Option String
deriving DecidableEq, Repr

/-- A raw `PATCH /companies/{id}` request body: each of the five fields either
omitted or provided (possibly null). -/
structure CompanyUpdateBody where
  name : Patch (Option String)
  industry : Patch (Option String)
  employees : Patch (Option Int)
  phone : Patch (Option String)
  state : Patch (Option String)
deriving DecidableEq, Repr

/-- Validation of a request body against `CompanyUpdate`: every field is
declared with `Field(...)`, hence required — a body omitting any of the five
fields is rejected by pydantic ("Field required", surfaced by FastAPI as
422). -/
def CompanyUpdate.validate (b : CompanyUpdateBody) : Except String CompanyUpdate :=
  match b.name, b.industry, b.employees, b.phone, b.state with
  | .set n, .set i, .set e, .set p, .set st => .ok ⟨n, i, e, p, st⟩
  | _, _, _, _, _ => .error "Field required"

/-- A value stored in the `companies` dict.  The annotation says
`Dict[UUID, CompanyRead]`, but `update_company` assigns a `CompanyUpdate`
instance, so the store can hold either. -/
inductive CompanyStored where
  | read (r : CompanyRead)
  | upd (u : CompanyUpdate)
deriving DecidableEq, Repr

/-- Whether a stored value is a `CompanyRead` instance. -/
def CompanyStored.isRead : CompanyStored → Bool
  | .read _ => true
  | .upd _ => false

/-- Attribute access `a.name` on a stored value, as used by the list filter
(`None` on a patched-in `CompanyUpdate` whose field was null). -/
def CompanyStored.nameVal : CompanyStored → Option String
  | .read r => some r.name
  | .upd u => u.name

/-- Attribute access `a.industry` on a stored value. -/
def CompanyStored.industryVal : CompanyStored → Option String
  | .read r => some r.industry
  | .upd u => u.industry

/-- Attribute access `a.employees` on a stored value. -/
def CompanyStored.employeesVal : CompanyStored → Option Int
  | .read r => some r.employees
  | .upd u => u.employees

/-- Attribute access `a.phone` on a stored value. -/
def CompanyStored.phoneVal : CompanyStored → Option String
  | .read r => some r.phone
  | .upd u => u.phone

/-- Attribute access `a.state` on a stored value. -/
def CompanyStored.stateVal : CompanyStored → Option String
  | .read r => some r.state
  | .upd u => u.state

/-- `CompanyRead(**company.model_dump())` inside `create_company`. -/
def mkCompanyRead (c : CompanyCreate) (t1 t2 : Nat) : CompanyRead :=
  { id := c.id, name := c.name, industry := c.industry,
    employees := c.employees, phone := c.phone, state := c.state,
    created_at := t1, updated_at := t2 }

/-- The body of `update_company` after the 404 check:
`stored = companies[company_id].model_dump()` (keys of the old value);
`stored.update(update.model_dump(exclude_unset=True))` — every `CompanyUpdate`
field is required, hence set on a validated instance, so the dump contains all
five fields and the overlay overwrites all five; then
`CompanyUpdate(**stored)` keeps only the five `CompanyUpdate` fields (pydantic
ignores the extra `id`/`created_at`/`updated_at` keys), so the new stored
value is exactly the patch body, with the old record's identity and
timestamps dropped. -/
def mergeCompanyUpdate (old : CompanyStored) (u : CompanyUpdate) : CompanyUpdate :=
  match old with
  | .read _ => { name := u.name, industry := u.industry, employees := u.employees,
                 phone := u.phone, state := u.state }
  | .upd _ => { name := u.name, industry := u.industry, employees := u.employees,
                phone := u.phone, state := u.state }

/-- The company store `companies : Dict[UUID, CompanyRead]` (annotation only:
see `CompanyStored`). -/
abbrev CompanyStore := List (Nat × CompanyStored)

/-- Initial state of the `companies` dict: empty. -/
def companiesInit : CompanyStore := []

/-! ## Company endpoints (`main.py`) -/

/-- `POST /company` (`create_company`): 400 on id collision, else store the
Read record built from the payload plus two fresh clock readings. -/
def create_company (s : CompanyStore) (company : CompanyCreate) (t1 t2 : Nat) :
    CompanyStore × Except HErr CompanyRead :=
  if hasKey company.id s then
    (s, .error ⟨400, "Company with this ID already exists"⟩)
  else
    let r := mkCompanyRead company t1 t2
    (setKey company.id (.read r) s, .ok r)

/-- `GET /company` (`list_companies`): start from `list(companies.values())`
and apply one exact-equality filter per supplied query parameter, in source
order. -/
def list_companies (s : CompanyStore) (name : Option String)
    (industry : Option String) (employees : Option Int)
    (phone : Option String) (state : Option String) :
    CompanyStore × List CompanyStored :=
  let results := vals s
  let results := match name with
    | none => results
    | some n => results.filter (fun a => a.nameVal == some n)
  let results := match industry with
    | none => results
    | some i => results.filter (fun a => a.industryVal == some i)
  let results := match employees with
    | none => results
    | some e => results.filter (fun a => a.employeesVal == some e)
  let results := match phone with
    | none => results
    | some p => results.filter (fun a => a.phoneVal == some p)
  let results := match state with
    | none => results
    | some st => results.filter (fun a => a.stateVal == some st)
  (s, results)

/-- `GET /companies/{company_id}` (`get_companies`): 404 if absent, else the
stored value. -/
def get_companies (s : CompanyStore) (company_id : Nat) :
    CompanyStore × Except HErr CompanyStored :=
  match getKey company_id s with
  | none => (s, .error ⟨404, "Company not found"⟩)
  | some v => (s, .ok v)

/-- `PATCH /companies/{company_id}` (`update_company`): 404 if absent; the
dump / overlay sequence is `mergeCompanyUpdate`, and the handler assigns
`CompanyUpdate(**stored)` — a `CompanyUpdate`, not a `CompanyRead` — into the
store and returns it. -/
def update_company (s : CompanyStore) (company_id : Nat) (update : CompanyUpdate) :
    CompanyStore × Except HErr CompanyStored :=
  match getKey company_id s with
  | none => (s, .error ⟨404, "Company not found"⟩)
  | some old =>
      let newVal := CompanyStored.upd (mergeCompanyUpdate old update)
      (setKey company_id newVal s, .ok newVal)

/-- `DELETE /companies/{company_id}` (`delete_company`): 404 if absent, else
remove the key. -/
def delete_company (s : CompanyStore) (company_id : Nat) :
    CompanyStore × Except HErr Unit :=
  if hasKey company_id s then (delKey company_id s, .ok ())
  else (s, .error ⟨404, "Company not found"⟩)

/-! ## Response serialization for the create endpoints

Both `POST` routes declare `response_model=<Resource>Create` (not `...Read`),
so FastAPI validates the handler's return value against the Create schema,
dropping the fields the Create schema does not declare before serializing the
body. -/

/-- JSON serialization of a `ProductCreate`. -/
def ProductCreate.toJson (p : ProductCreate) : List (String × JVal) :=
  [("id", .jint p.id),
   ("name", .jstr p.name),
   ("description", match p.description with | none => .jnull | some d => .jstr d),
   ("price", .jnum p.price),
   ("quantity", .jint p.quantity)]

/-- JSON serialization of a `ProductRead` (base fields plus timestamps). -/
def ProductRead.toJson (r : ProductRead) : List (String × JVal) :=
  [("id", .jint r.id),
   ("name", .jstr r.name),
   ("description", match r.description with | none => .jnull | some d => .jstr d),
   ("price", .jnum r.price),
   ("quantity", .jint r.quantity),
   ("created_at", .jint r.created_at),
   ("updated_at", .jint r.updated_at)]

/-- The `response_model=ProductCreate` filter applied to the `ProductRead` the
handler returns: keep exactly the Create-schema fields. -/
def ProductCreate.ofRead (r : ProductRead) : ProductCreate :=
  { id := r.id, name := r.name, description := r.description,
    price := r.price, quantity := r.quantity }

/-- JSON serialization of a `CompanyCreate`. -/
def CompanyCreate.toJson (c : CompanyCreate) : List (String × JVal) :=
  [("id", .jint c.id),
   ("name", .jstr c.name),
   ("industry", .jstr c.industry),
   ("employees", .jint c.employees),
   ("phone", .jstr c.phone),
   ("state", .jstr c.state)]

/-- JSON serialization of a `CompanyRead` (base fields plus timestamps). -/
def CompanyRead.toJson (r : CompanyRead) : List (String × JVal) :=
  [("id", .jint r.id),
   ("name", .jstr r.name),
   ("industry", .jstr r.industry),
   ("employees", .jint r.employees),
   ("phone", .jstr r.phone),
   ("state", .jstr r.state),
   ("created_at", .jint r.created_at),
   ("updated_at", .jint r.updated_at)]

/-- The `response_model=CompanyCreate` filter applied to the `CompanyRead` the
handler returns. -/
def CompanyCreate.ofRead (r : CompanyRead) : CompanyCreate :=
  { id := r.id, name := r.name, industry := r.industry,
    employees := r.employees, phone := r.phone, state := r.state }

/-- The full `POST /product` route: handler plus status code and serialized
body (`status_code=201` on success, the exception's status and detail
otherwise; `response_model=ProductCreate` filters the body). -/
def create_product_http (s : ProductStore) (product : ProductCreate) (t1 t2 : Nat) :
    ProductStore × Nat × List (String × JVal) :=
  match create_product s product t1 t2 with
  | (s', .ok r) => (s', 201, (ProductCreate.ofRead r).toJson)
  | (s', .error e) => (s', e.status, [("detail", .jstr e.detail)])

/-- The full `POST /company` route (`status_code=201`,
`response_model=CompanyCreate`). -/
def create_company_http (s : CompanyStore) (company : CompanyCreate) (t1 t2 : Nat) :
    CompanyStore × Nat × List (String × JVal) :=
  match create_company s company t1 t2 with
  | (s', .ok r) => (s', 201, (CompanyCreate.ofRead r).toJson)
  | (s', .error e) => (s', e.status, [("detail", .jstr e.detail)])

/-! ## Filter predicates and the key-consistency invariant -/

/-- Conjunction (logical AND) of exactly the supplied product filter
criteria: an absent criterion imposes no constraint. -/
def matchesProduct (name : Option String) (description : Option String)
    (price : Option Rat) (quantity : Option Int) (a : ProductRead) : Bool :=
  (match name with | none => true | some n => a.name == n) &&
  (match description with | none => true | some d => a.description == some d) &&
  (match price with | none => true | some p => a.price == p) &&
  (match quantity with | none => true | some q => a.quantity == q)

/-- Conjunction (logical AND) of exactly the supplied company filter
criteria. -/
def matchesCompany (name : Option String) (industry : Option String)
    (employees : Option Int) (phone : Option String) (state : Option String)
    (a : CompanyStored) : Bool :=
  (match name with | none => true | some n => a.nameVal == some n) &&
  (match industry with | none => true | some i => a.industryVal == some i) &&
  (match employees with | none => true | some e => a.employeesVal == some e) &&
  (match phone with | none => true | some p => a.phoneVal == some p) &&
  (match state with | none => true | some st => a.stateVal == some st)

/-- Key consistency of the product store: every stored record's `id` field
equals the key it is stored under. -/
def ProductStoreInv (s : ProductStore) : Prop :=
  ∀ kv ∈ s, (kv.2).id = kv.1

/-! ## Concrete fixtures (for witnesses and concrete evaluations) -/

/-- A concrete product payload. -/
def p0 : ProductCreate :=
  ⟨1, "Toaster", some "A kitchen appliance used to toast bread.", 5, 35⟩

/-- The product record stored for `p0` with both clock readings equal to 10. -/
def r0 : ProductRead := mkProductRead p0 10 10

/-- A product store holding `r0` under key 1. -/
def sP0 : ProductStore := [(1, r0)]

/-- A concrete company payload. -/
def c0raw : CompanyCreate :=
  ⟨1, "Major Company Inc.", "Aerospace", 400, "555-555-5555", "New York"⟩

/-- The company record stored for `c0raw` with both clock readings 10. -/
def c0 : CompanyRead := mkCompanyRead c0raw 10 10

/-- A company store holding `c0` under key 1. -/
def sC0 : CompanyStore := [(1, CompanyStored.read c0)]

/-- A product patch body supplying only `price`. -/
def uP1 : ProductUpdate :=
  ⟨Patch.unset, Patch.unset, Patch.set (some 7), Patch.unset⟩

/-- A product patch body supplying only `name`. -/
def uP2 : ProductUpdate :=
  ⟨Patch.set (some "Oven"), Patch.unset, Patch.unset, Patch.unset⟩

/-- The empty product patch body: no field provided. -/
def emptyProductUpdate : ProductUpdate :=
  ⟨Patch.unset, Patch.unset, Patch.unset, Patch.unset⟩

/-- The empty company patch body: no field provided. -/
def emptyCompanyBody : CompanyUpdateBody :=
  ⟨Patch.unset, Patch.unset, Patch.unset, Patch.unset, Patch.unset⟩

/-- A validated company patch supplying all five fields (as the schema
requires). -/
def uC1 : CompanyUpdate :=
  ⟨some "Empire Taxi Company", some "Transportation", some 200,
   some "212-555-1000", some "New York"⟩

/-! ## Store lemmas -/

theorem getKey_setKey_self (k : Nat) (v : α) (s : List (Nat × α)) :
    getKey k (setKey k v s) = some v := by
  induction s with
  | nil => simp [setKey, getKey]
  | cons kv rest ih =>
      by_cases h : kv.1 = k
      · simp [setKey, getKey, h]
      · simp [setKey, getKey, h, ih]

theorem hasKey_setKey_self (k : Nat) (v : α) (s : List (Nat × α)) :
    hasKey k (setKey k v s) = true := by
  simp [hasKey, getKey_setKey_self]

theorem getKey_delKey_self (k : Nat) (s : List (Nat × α)) :
    getKey k (delKey k s) = none := by
  induction s with
  | nil => simp [delKey, getKey]
  | cons kv rest ih =>
      by_cases h : kv.1 = k
      · simpa [delKey, h] using ih
      · simpa [delKey, getKey, h] using ih

theorem hasKey_delKey_self (k : Nat) (s : List (Nat × α)) :
    hasKey k (delKey k s) = false := by
  simp [hasKey, getKey_delKey_self]

theorem mem_setKey (k : Nat) (v : α) (s : List (Nat × α)) :
    ∀ kv ∈ setKey k v s, kv ∈ s ∨ kv = (k, v) := by
  induction s with
  | nil => simp [setKey]
  | cons kv' rest ih =>
      by_cases h : kv'.1 = k
      · intro kv hkv
        simp only [setKey, h, if_pos] at hkv
        rcases List.mem_cons.mp hkv with h1 | h2
        · right; exact h1
        · left; exact List.mem_cons_of_mem _ h2
      · intro kv hkv
        simp only [setKey, h, if_neg, not_false_iff] at hkv
        rcases List.mem_cons.mp hkv with h1 | h2
        · left; exact h1 ▸ List.mem_cons_self _ _
        · rcases ih kv h2 with h3 | h4
          · left; exact List.mem_cons_of_mem _ h3
          · right; exact h4

theorem getKey_mem (k : Nat) (v : α) (s : List (Nat × α))
    (h : getKey k s = some v) : (k, v) ∈ s := by
  induction s with
  | nil => simp [getKey] at h
  | cons kv rest ih =>
      by_cases hk : kv.1 = k
      · simp only [getKey, hk, if_pos, Option.some.injEq] at h
        have hkv : kv = (k, v) := Prod.ext hk h
        rw [hkv]
        exact List.mem_cons_self _ _
      · simp only [getKey, hk, if_neg, not_false_iff] at h
        exact List.mem_cons_of_mem _ (ih h)

theorem mem_delKey (k : Nat) (s : List (Nat × α)) :
    ∀ kv ∈ delKey k s, kv ∈ s :=
  fun _ h => List.mem_of_mem_filter h

/-! ## Handler lemmas -/

theorem get_products_fst (s : ProductStore) (pid : Nat) :
    (get_products s pid).1 = s := by
  cases h : getKey pid s <;> simp [get_products, h]

theorem list_products_fst (s : ProductStore) (n d : Option String)
    (p : Option Rat) (q : Option Int) : (list_products s n d p q).1 = s := rfl

theorem get_companies_fst (s : CompanyStore) (cid : Nat) :
    (get_companies s cid).1 = s := by
  cases h : getKey cid s <;> simp [get_companies, h]

theorem list_companies_fst (s : CompanyStore) (n i : Option String)
    (e : Option Int) (ph st : Option String) :
    (list_companies s n i e ph st).1 = s := rfl

/-- The overlay-and-revalidate step never changes the `id` field. -/
theorem applyProductUpdate_id (r : ProductRead) (u : ProductUpdate)
    (r' : ProductRead) (h : applyProductUpdate r u = .ok r') : r'.id = r.id := by
  simp only [applyProductUpdate] at h
  split at h
  · cases h
    rfl
  · cases h

/-- The overlay-and-revalidate step never changes the `updated_at` field. -/
theorem applyProductUpdate_updated_at (r : ProductRead) (u : ProductUpdate)
    (r' : ProductRead) (h : applyProductUpdate r u = .ok r') :
    r'.updated_at = r.updated_at := by
  simp only [applyProductUpdate] at h
  split at h
  · cases h
    rfl
  · cases h

/-! ## Claims -/

/-- C4: for every resource kind and every state of the store, Create with a
payload whose id is already a key fails with Conflict (400) and returns the
store unchanged, so the existing record under that id keeps all its field
values. -/
theorem C4_duplicate_create_conflict :
    (∀ (s : ProductStore) (p : ProductCreate) (t1 t2 : Nat),
      hasKey p.id s = true →
      create_product s p t1 t2
        = (s, .error ⟨400, "Product with this ID already exists"⟩)) ∧
    (∀ (s : CompanyStore) (c : CompanyCreate) (t1 t2 : Nat),
      hasKey c.id s = true →
      create_company s c t1 t2
        = (s, .error ⟨400, "Company with this ID already exists"⟩)) := by
  constructor
  · intro s p t1 t2 h
    simp [create_product, h]
  · intro s c t1 t2 h
    simp [create_company, h]

/-- Witness for C4: a duplicate create on concrete stores. -/
theorem C4_witness :
    hasKey p0.id sP0 = true ∧ hasKey c0raw.id sC0 = true ∧
    create_product sP0 p0 0 1
      = (sP0, .error ⟨400, "Product with this ID already exists"⟩) ∧
    create_company sC0 c0raw 0 1
      = (sC0, .error ⟨400, "Company with this ID already exists"⟩) :=
  ⟨rfl, rfl, C4_duplicate_create_conflict.1 sP0 p0 0 1 rfl,
    C4_duplicate_create_conflict.2 sC0 c0raw 0 1 rfl⟩

/-- C9: Get-by-id and List (with any combination of filter criteria), for
both resource kinds, return the store exactly as it was, whether the lookup
succeeds or not. -/
theorem C9_reads_preserve_stores :
    (∀ (s : ProductStore) (pid : Nat), (get_products s pid).1 = s) ∧
    (∀ (s : ProductStore) (n d : Option String) (p : Option Rat)
      (q : Option Int), (list_products s n d p q).1 = s) ∧
    (∀ (s : CompanyStore) (cid : Nat), (get_companies s cid).1 = s) ∧
    (∀ (s : CompanyStore) (n i : Option String) (e : Option Int)
      (ph st : Option String), (list_companies s n i e ph st).1 = s) :=
  ⟨get_products_fst, list_products_fst, get_companies_fst, list_companies_fst⟩

/-- C8: for every resource kind, after a successful Delete of a present id, a
Get on the same id fails with 404 and a second Delete also fails with 404
(note the product handlers' differing detail strings, faithful to the
source). -/
theorem C8_delete_then_get_then_delete :
    (∀ (s : ProductStore) (pid : Nat), hasKey pid s = true →
      (delete_product s pid).2 = .ok () ∧
      (get_products (delete_product s pid).1 pid).2
        = .error ⟨404, "Product not found"⟩ ∧
      (delete_product (delete_product s pid).1 pid).2
        = .error ⟨404, "Product not found."⟩) ∧
    (∀ (s : CompanyStore) (cid : Nat), hasKey cid s = true →
      (delete_company s cid).2 = .ok () ∧
      (get_companies (delete_company s cid).1 cid).2
        = .error ⟨404, "Company not found"⟩ ∧
      (delete_company (delete_company s cid).1 cid).2
        = .error ⟨404, "Company not found"⟩) := by
  constructor
  · intro s pid h
    refine ⟨by simp [delete_product, h], ?_, ?_⟩
    · simp [delete_product, h, get_products, getKey_delKey_self]
    · simp [delete_product, h, hasKey_delKey_self]
  · intro s cid h
    refine ⟨by simp [delete_company, h], ?_, ?_⟩
    · simp [delete_company, h, get_companies, getKey_delKey_self]
    · simp [delete_company, h, hasKey_delKey_self]

/-- Witness for C8: delete, re-get and re-delete on concrete stores. -/
theorem C8_witness :
    hasKey 1 sP0 = true ∧ hasKey 1 sC0 = true ∧
    (get_products (delete_product sP0 1).1 1).2
      = .error ⟨404, "Product not found"⟩ ∧
    (delete_product (delete_product sP0 1).1 1).2
      = .error ⟨404, "Product not found."⟩ ∧
    (get_companies (delete_company sC0 1).1 1).2
      = .error ⟨404, "Company not found"⟩ :=
  ⟨rfl, rfl, (C8_delete_then_get_then_delete.1 sP0 1 rfl).2.1,
    (C8_delete_then_get_then_delete.1 sP0 1 rfl).2.2,
    (C8_delete_then_get_then_delete.2 sC0 1 rfl).2.1⟩

/-- C7: for both resource kinds, the list endpoint returns exactly the
subsequence of stored values satisfying the conjunction of the supplied
criteria (exact equality per field); with zero criteria it returns the full
collection, and the result is always a sublist of the collection (an empty
match yields `[]`, never an error). -/
theorem C7_list_is_exact_filter :
    (∀ (s : ProductStore) (n d : Option String) (p : Option Rat)
      (q : Option Int),
      (list_products s n d p q).2 = (vals s).filter (matchesProduct n d p q) ∧
      (list_products s n d p q).2.Sublist (vals s)) ∧
    (∀ (s : ProductStore), (list_products s none none none none).2 = vals s) ∧
    (∀ (s : CompanyStore) (n i : Option String) (e : Option Int)
      (ph st : Option String),
      (list_companies s n i e ph st).2
        = (vals s).filter (matchesCompany n i e ph st) ∧
      (list_companies s n i e ph st).2.Sublist (vals s)) ∧
    (∀ (s : CompanyStore),
      (list_companies s none none none none none).2 = vals s) := by
  have hp : ∀ (s : ProductStore) (n d : Option String) (p : Option Rat)
      (q : Option Int),
      (list_products s n d p q).2 = (vals s).filter (matchesProduct n d p q) := by
    intro s n d p q
    cases n <;> cases d <;> cases p <;> cases q <;>
      simp only [list_products, List.filter_filter] <;>
      first
        | (symm
           rw [List.filter_eq_self]
           intro a _
           simp [matchesProduct])
        | (apply List.filter_congr
           intro a _
           simp [matchesProduct, Bool.and_comm, Bool.and_left_comm,
             Bool.and_assoc])
  have hc : ∀ (s : CompanyStore) (n i : Option String) (e : Option Int)
      (ph st : Option String),
      (list_companies s n i e ph st).2
        = (vals s).filter (matchesCompany n i e ph st) := by
    intro s n i e ph st
    cases n <;> cases i <;> cases e <;> cases ph <;> cases st <;>
      simp only [list_companies, List.filter_filter] <;>
      first
        | (symm
           rw [List.filter_eq_self]
           intro a _
           simp [matchesCompany])
        | (apply List.filter_congr
           intro a _
           simp [matchesCompany, Bool.and_comm, Bool.and_left_comm,
             Bool.and_assoc])
  refine ⟨fun s n d p q => ⟨hp s n d p q, ?_⟩, fun s => rfl,
    fun s n i e ph st => ⟨hc s n i e ph st, ?_⟩, fun s => rfl⟩
  · rw [hp]
    exact List.filter_sublist _
  · rw [hc]
    exact List.filter_sublist _

/-- C10: the product store satisfies the key-consistency invariant (every
stored record's `id` equals its key) in the empty initial state, and every
product operation preserves it. -/
theorem C10_key_consistency :
    ProductStoreInv productsInit ∧
    (∀ (s : ProductStore) (p : ProductCreate) (t1 t2 : Nat),
      ProductStoreInv s → ProductStoreInv (create_product s p t1 t2).1) ∧
    (∀ (s : ProductStore) (pid : Nat),
      ProductStoreInv s → ProductStoreInv (get_products s pid).1) ∧
    (∀ (s : ProductStore) (n d : Option String) (p : Option Rat)
      (q : Option Int),
      ProductStoreInv s → ProductStoreInv (list_products s n d p q).1) ∧
    (∀ (s : ProductStore) (pid : Nat) (u : ProductUpdate),
      ProductStoreInv s → ProductStoreInv (update_product s pid u).1) ∧
    (∀ (s : ProductStore) (pid : Nat),
      ProductStoreInv s → ProductStoreInv (delete_product s pid).1) := by
  refine ⟨?_, ?_, ?_, ?_, ?_, ?_⟩
  · intro kv hkv
    simp [productsInit] at hkv
  · intro s p t1 t2 hs
    by_cases hk : hasKey p.id s
    · simpa [create_product, hk] using hs
    · simp only [create_product, hk, Bool.false_eq_true, if_false]
      intro kv hkv
      rcases mem_setKey p.id (mkProductRead p t1 t2) s kv hkv with h1 | h2
      · exact hs kv h1
      · rw [h2]
        rfl
  · intro s pid hs
    rw [get_products_fst]
    exact hs
  · intro s n d p q hs
    rw [list_products_fst]
    exact hs
  · intro s pid u hs
    cases hg : getKey pid s with
    | none => simpa [update_product, hg] using hs
    | some stored =>
        cases ha : applyProductUpdate stored u with
        | error e => simpa [update_product, hg, ha] using hs
        | ok r =>
            simp only [update_product, hg, ha]
            intro kv hkv
            rcases mem_setKey pid r s kv hkv with h1 | h2
            · exact hs kv h1
            · rw [h2]
              have hid : stored.id = pid := hs (pid, stored) (getKey_mem pid stored s hg)
              rw [applyProductUpdate_id stored u r ha]
              exact hid
  · intro s pid hs
    by_cases hk : hasKey pid s
    · simp only [delete_product, hk, if_true]
      intro kv hkv
      exact hs kv (mem_delKey pid s kv hkv)
    · simpa [delete_product, hk] using hs

/-- Witness for C10: the invariant holds for the empty store and is carried
through a concrete create. -/
theorem C10_witness :
    ProductStoreInv productsInit ∧
    ProductStoreInv (create_product productsInit p0 0 1).1 :=
  ⟨C10_key_consistency.1,
    C10_key_consistency.2.1 productsInit p0 0 1 C10_key_consistency.1⟩

/-- C1 (evaluation at the failing input): patching only `price` on a stored
product overlays exactly that field — `name`, `description`, `quantity` (and
`id` and the timestamps) are unchanged — but patching a stored company
replaces the stored value with a `CompanyUpdate` instance (the patch body
itself), not the overlaid Read record: `update_company` assigns
`CompanyUpdate(**stored)`, which has no `id`, `created_at` or `updated_at`
field, and since every `CompanyUpdate` field is required, all five base
fields are overwritten rather than overlaid. -/
theorem C1_patch_overlay_concrete :
    update_product sP0 1 uP1 = ([(1, { r0 with price := 7 })], .ok { r0 with price := 7 }) ∧
    update_company sC0 1 uC1 = ([(1, CompanyStored.upd uC1)], .ok (CompanyStored.upd uC1)) ∧
    (getKey 1 (update_company sC0 1 uC1).1).map CompanyStored.isRead = some false := by
  refine ⟨rfl, rfl, rfl⟩

/-- C2 (evaluation at the failing input): an empty `PATCH` body validates
against `ProductUpdate` (all fields optional) and patching a product with it
returns the stored record with no field changed; but the same empty body is
rejected by `CompanyUpdate` validation, because every `CompanyUpdate` field
is declared `Field(...)` — required (though nullable). -/
theorem C2_empty_patch_body :
    ProductUpdate.validate emptyProductUpdate = .ok emptyProductUpdate ∧
    update_product sP0 1 emptyProductUpdate = (sP0, .ok r0) ∧
    CompanyUpdate.validate emptyCompanyBody = .error "Field required" := by
  refine ⟨rfl, rfl, rfl⟩

/-- C6 (evaluation at the failing input): a name-only patch on a stored
product leaves the stored record's `id` and `updated_at` unchanged, but a
patch on a stored company replaces the stored value with a `CompanyUpdate`,
which has no `id` field and no `updated_at` field at all. -/
theorem C6_patch_id_updated_at_concrete :
    (getKey 1 (update_product sP0 1 uP2).1).map ProductRead.id = some 1 ∧
    (getKey 1 (update_product sP0 1 uP2).1).map ProductRead.updated_at = some 10 ∧
    (getKey 1 (update_product sP0 1 uP2).1).map ProductRead.name = some "Oven" ∧
    getKey 1 (update_company sC0 1 uC1).1 = some (CompanyStored.upd uC1) := by
  refine ⟨?_, ?_, ?_, rfl⟩ <;> decide

/-- C3 (amended): a create with a fresh id responds 201, stores the full Read
record (base fields plus both timestamps), and the response body is the
Create-schema projection of that record — exactly the payload's base fields,
because both `POST` routes declare `response_model=<Resource>Create`, which
drops `created_at` and `updated_at` before serializing. -/
theorem C3_create_responds_201_with_create_projection :
    (∀ (s : ProductStore) (p : ProductCreate) (t1 t2 : Nat),
      hasKey p.id s = false →
      create_product_http s p t1 t2
        = (setKey p.id (mkProductRead p t1 t2) s, 201, p.toJson)) ∧
    (∀ (s : CompanyStore) (c : CompanyCreate) (t1 t2 : Nat),
      hasKey c.id s = false →
      create_company_http s c t1 t2
        = (setKey c.id (CompanyStored.read (mkCompanyRead c t1 t2)) s, 201,
            c.toJson)) := by
  constructor
  · intro s p t1 t2 h
    simp [create_product_http, create_product, h, ProductCreate.ofRead,
      mkProductRead, ProductCreate.toJson]
  · intro s c t1 t2 h
    simp [create_company_http, create_company, h, CompanyCreate.ofRead,
      mkCompanyRead, CompanyCreate.toJson]

/-- Witness for C3 (amended) at concrete fresh creates. -/
theorem C3_witness :
    hasKey p0.id productsInit = false ∧ hasKey c0raw.id companiesInit = false ∧
    create_product_http productsInit p0 0 1
      = (setKey p0.id (mkProductRead p0 0 1) productsInit, 201, p0.toJson) ∧
    create_company_http companiesInit c0raw 0 1
      = (setKey c0raw.id (CompanyStored.read (mkCompanyRead c0raw 0 1))
          companiesInit, 201, c0raw.toJson) :=
  ⟨rfl, rfl,
    C3_create_responds_201_with_create_projection.1 productsInit p0 0 1 rfl,
    C3_create_responds_201_with_create_projection.2 companiesInit c0raw 0 1 rfl⟩

/-- Counterexample to C3 as stated: a successful concrete create responds
201, yet its response body has no `created_at` or `updated_at` key — only the
stored record carries them. -/
theorem C3_counterexample_response_lacks_timestamps :
    (create_product_http productsInit p0 0 1).2.1 = 201 ∧
    jsonGet "created_at" (create_product_http productsInit p0 0 1).2.2 = none ∧
    jsonGet "updated_at" (create_product_http productsInit p0 0 1).2.2 = none ∧
    jsonGet "created_at" (mkProductRead p0 0 1).toJson = some (JVal.jint 0) ∧
    jsonGet "updated_at" (mkProductRead p0 0 1).toJson = some (JVal.jint 1) := by
  refine ⟨rfl, ?_, ?_, ?_, ?_⟩ <;> decide

/-- C5 (amended): creating with a fresh id and then getting that id returns a
record whose base fields equal the payload's fields and whose `created_at`
and `updated_at` are the first and second clock reading taken at creation
(both always set); they are equal only when those two readings coincide,
which the code does not enforce (two separate `datetime.utcnow()` calls). -/
theorem C5_create_then_get_fields_and_timestamps :
    (∀ (s : ProductStore) (p : ProductCreate) (t1 t2 : Nat),
      hasKey p.id s = false →
      (get_products (create_product s p t1 t2).1 p.id).2
        = .ok { id := p.id, name := p.name, description := p.description,
                price := p.price, quantity := p.quantity,
                created_at := t1, updated_at := t2 }) ∧
    (∀ (s : CompanyStore) (c : CompanyCreate) (t1 t2 : Nat),
      hasKey c.id s = false →
      (get_companies (create_company s c t1 t2).1 c.id).2
        = .ok (CompanyStored.read
            { id := c.id, name := c.name, industry := c.industry,
              employees := c.employees, phone := c.phone, state := c.state,
              created_at := t1, updated_at := t2 })) := by
  constructor
  · intro s p t1 t2 h
    simp [create_product, h, get_products, getKey_setKey_self, mkProductRead]
  · intro s c t1 t2 h
    simp [create_company, h, get_companies, getKey_setKey_self, mkCompanyRead]

/-- Witness for C5 (amended) at a concrete fresh create. -/
theorem C5_witness :
    hasKey p0.id productsInit = false ∧
    (get_products (create_product productsInit p0 3 4).1 p0.id).2
      = .ok { id := p0.id, name := p0.name, description := p0.description,
              price := p0.price, quantity := p0.quantity,
              created_at := 3, updated_at := 4 } :=
  ⟨rfl, C5_create_then_get_fields_and_timestamps.1 productsInit p0 3 4 rfl⟩

/-- Counterexample to C5 as stated: in a concrete create-then-get run whose
two creation-time clock readings differ (as two consecutive
`datetime.utcnow()` calls may), the record returned by Get has
`created_at ≠ updated_at`, refuting the claimed equality. -/
theorem C5_counterexample_timestamps_differ :
    (get_products (create_product productsInit p0 0 1).1 1).2
      = .ok (mkProductRead p0 0 1) ∧
    ((mkProductRead p0 0 1).created_at == (mkProductRead p0 0 1).updated_at)
      = false := by
  refine ⟨rfl, rfl⟩
